import Mathlib

/-!
Verification development for the Minion firmware control layer.

This file shallowly embeds the light-ring safety controller of
`minion_hat_gpio.py`, the recovery retry logic of `recovery.py`, and the
temperature/pressure sampling of `tp.py`, and proves the specified
properties about those embeddings.

Conventions:
* Durations in seconds are rationals (`ℚ`); the refresh delay is 1/2 s.
* Python `int` fields are `ℤ`; loop counters / attempt counts are `ℕ`.
* The GPIO pin level of the LED ring is a `Bool` (`true` = HIGH).
* Each operation that writes to the LED-ring pin has a `_w` variant that
  also returns, in order, the list of levels written to the pin during
  the call, so that transient pulses (flash on/off) are observable.
-/

namespace MinionHatGpio

/-- `LIGHT_RING_MAX_ON_TIME = 60` seconds. -/
def LIGHT_RING_MAX_ON_TIME : ℚ := 60

/-- `LIGHT_RING_MIN_OFF_TIME = 5` seconds. -/
def LIGHT_RING_MIN_OFF_TIME : ℚ := 5

/-- `LIGHT_RING_REFRESH_DELAY = 0.5` seconds. -/
def LIGHT_RING_REFRESH_DELAY : ℚ := 1/2

/-- The module-level mutable state of the light-ring controller in
`minion_hat_gpio.py`, plus the physical level of the `LED_RING` GPIO pin. -/
structure RingState where
  /-- `ring_state`: tracks if light ring is on or off. -/
  ring_state : Bool
  /-- `ring_on_time`: cumulative time the light ring has been on (s). -/
  ring_on_time : ℚ
  /-- `ring_off_time`: time the light ring has been off (s). -/
  ring_off_time : ℚ
  /-- `ring_flashing`: whether the light ring is flashing. -/
  ring_flashing : Bool
  /-- `ring_flash_count`: number of flashes requested. -/
  ring_flash_count : ℤ
  /-- `ring_flash_on_time`: flash on time (ms). -/
  ring_flash_on_time : ℤ
  /-- `ring_flash_off_time`: flash off time (ms). -/
  ring_flash_off_time : ℤ
  /-- `ring_alive`: whether the background light-ring thread is active. -/
  ring_alive : Bool
  /-- `flash_counter`: number of flashes completed in the current sequence. -/
  flash_counter : ℤ
  /-- Level currently driven on the `LED_RING` pin (`true` = `GPIO.HIGH`). -/
  led_ring_output : Bool
deriving DecidableEq, Repr

/-- The initial values of the module state variables
(`minion_hat_gpio.py` lines 105-114); the pin is low after `init()`. -/
def initialRingState : RingState where
  ring_state := false
  ring_on_time := 0
  ring_off_time := LIGHT_RING_MIN_OFF_TIME
  ring_flashing := false
  ring_flash_count := 0
  ring_flash_on_time := 250
  ring_flash_off_time := 250
  ring_alive := false
  flash_counter := 0
  led_ring_output := false

/-- `light_ring_open_thread()`: marks the background thread alive
(the spawned thread itself is modelled by explicit `light_ring_tick` steps). -/
def light_ring_open_thread (s : RingState) : RingState :=
  { s with ring_alive := true }

/-- `light_ring_set(new_state)`, instrumented: returns the new state and the
list of levels written to the `LED_RING` pin during the call. -/
def light_ring_set_w (new_state : Bool) (s : RingState) : RingState × List Bool :=
  if s.ring_state = new_state then
    (s, [])  -- Nothing to do
  else if new_state ∧ s.ring_off_time < LIGHT_RING_MIN_OFF_TIME then
    (s, [])  -- Min off time not met: keep off
  else
    let s1 := if ¬ s.ring_alive then light_ring_open_thread s else s
    ({ s1 with led_ring_output := new_state, ring_state := new_state }, [new_state])

/-- `light_ring_set(new_state)`: state effect only. -/
def light_ring_set (new_state : Bool) (s : RingState) : RingState :=
  (light_ring_set_w new_state s).1

/-- `light_ring_flash_set(count, time_on, time_off)`. -/
def light_ring_flash_set (count time_on time_off : ℤ) (s : RingState) : RingState :=
  -- Stop the current sequence if flashing is active
  let s1 := if s.ring_flashing then { s with ring_flashing := false } else s
  -- set new flash parameters and reset the counter
  let s2 := { s1 with
    ring_flash_count := count
    ring_flash_on_time := time_on
    ring_flash_off_time := time_off
    flash_counter := 0
    ring_flashing := true }
  if ¬ s2.ring_alive then light_ring_open_thread s2 else s2

/-- `light_ring_close_thread()`: stop the thread and drive the pin low. -/
def light_ring_close_thread (s : RingState) : RingState :=
  { s with ring_alive := false, led_ring_output := false }

/-- The safety-timer update at the top of each `light_ring_run_thread`
loop iteration (`minion_hat_gpio.py` lines 221-226). -/
def ring_update_timers (s : RingState) : RingState :=
  if s.ring_state then
    { s with ring_on_time := s.ring_on_time + LIGHT_RING_REFRESH_DELAY, ring_off_time := 0 }
  else
    { s with ring_on_time := 0, ring_off_time := s.ring_off_time + LIGHT_RING_REFRESH_DELAY }

/-- The safety check of a `light_ring_run_thread` loop iteration
(`minion_hat_gpio.py` lines 228-231): force the ring off once the
(already updated) on-timer reaches the maximum. -/
def ring_safety_w (s1 : RingState) : RingState × List Bool :=
  if s1.ring_state ∧ LIGHT_RING_MAX_ON_TIME ≤ s1.ring_on_time then
    light_ring_set_w false s1
  else (s1, [])

/-- The flashing logic of a `light_ring_run_thread` loop iteration
(`minion_hat_gpio.py` lines 233-244): one on/off pulse per iteration
while steps remain (pin HIGH, sleep on-time, pin LOW, sleep off-time,
counter += 1), then stop flashing after completing the specified count. -/
def ring_flash_w (s2 : RingState) : RingState × List Bool :=
  if s2.ring_flashing then
    if s2.flash_counter < s2.ring_flash_count then
      ({ s2 with led_ring_output := false, flash_counter := s2.flash_counter + 1 },
       [true, false])
    else
      ({ s2 with ring_flashing := false, flash_counter := 0 }, [])
  else (s2, [])

/-- One iteration of the `while ring_alive` loop body of
`light_ring_run_thread`: timer update, then safety check, then flashing
logic, instrumented with the list of levels written to the `LED_RING`
pin during the iteration (all writes happen after the timer update). -/
def light_ring_tick_w (s : RingState) : RingState × List Bool :=
  let r2 := ring_safety_w (ring_update_timers s)
  let r3 := ring_flash_w r2.1
  (r3.1, r2.2 ++ r3.2)

/-- One loop iteration of the background thread: state effect only. -/
def light_ring_tick (s : RingState) : RingState :=
  (light_ring_tick_w s).1

/-- A concrete state with the ring on and the on-timer at the maximum:
used to instantiate the safety-trip theorem. -/
def c1TestState : RingState where
  ring_state := true
  ring_on_time := LIGHT_RING_MAX_ON_TIME
  ring_off_time := 0
  ring_flashing := true
  ring_flash_count := 3
  ring_flash_on_time := 250
  ring_flash_off_time := 250
  ring_alive := true
  flash_counter := 1
  led_ring_output := true

/-- A concrete reachable state: turn the ring on, run one tick, turn it
off, then request a one-step flash. Its off-timer is 0 and a flash is
pending, so the next tick pulses the pin high with the off-timer at
0.5 s, below `LIGHT_RING_MIN_OFF_TIME`. -/
def c2TraceState : RingState :=
  light_ring_flash_set 1 250 250
    (light_ring_set false (light_ring_tick (light_ring_set true initialRingState)))

/-- A concrete state with a freshly requested two-step flash sequence. -/
def c4TestState : RingState :=
  light_ring_flash_set 2 250 250 initialRingState

end MinionHatGpio

namespace Recovery

/-- The GPS data returned by `MinSat.sbd_send_position`, as far as
`recovery.py` inspects it: only the `valid_position` flag is read. -/
structure PosResult where
  valid_position : Bool
deriving DecidableEq, Repr

/-- The outcome that `acquire_and_send_gps_position` reports through its
logging/printing: success on the first attempt, success on the retry, or
final failure after the retry. -/
inductive GpsReport
  | okFirst
  | okRetry
  | failFinal
deriving DecidableEq, Repr

/-- The externally visible device actions `recovery.py` performs through
`MinionHat`/`MinSat`, in program order. -/
inductive RecAct
  /-- `minion_hat.burn_wire(ENABLE)` -/
  | burnWireEnable
  /-- `minion_hat.strobe_timing(_STROBE_ON, _STROBE_OFF)` -/
  | strobeTiming (onMs offMs : ℤ)
  /-- `minion_hat.strobe(ENABLE)` -/
  | strobeEnable
  /-- `m1.sbd_send_position(..., maintain_gps_pwr, ...)` -/
  | sendPos (maintain_gps_pwr : Bool)
  /-- `m1.gps_pwr(dev_off)` -/
  | gpsPwrOff
  /-- `m1.modem_pwr(dev_off)` -/
  | modemPwrOff
deriving DecidableEq, Repr

/-- `_STROBE_ON = 100` ms. -/
def STROBE_ON : ℤ := 100

/-- `_STROBE_OFF = 4900` ms. -/
def STROBE_OFF : ℤ := 4900

/-- The success test `recovery.py` applies to an `sbd_send_position`
result `(success, ret_data)`: `success and ret_data.valid_position`. -/
def sbd_pos_ok (r : Bool × PosResult) : Bool :=
  r.1 && r.2.valid_position

/-- `Recovery.acquire_and_send_gps_position`, with the modem collaborator
modelled as an oracle `sbd_send_position` from the `maintain_gps_pwr`
flag (the only argument that differs between the two calls) to the
returned `(success, ret_data)` pair. Returns the list of device actions
performed, in order, and the reported outcome.

Modelled from the spec: `sensors/minsat.py` is not in the sources; per
the spec, `MinSat` reports failures through its return values, so the
oracle here returns plainly (the exception-propagating variant is
`acquireE`). -/
def acquire_and_send_gps_position (sbd_send_position : Bool → Bool × PosResult) :
    List RecAct × GpsReport :=
  -- Activate the burn wire and strobe
  let pre : List RecAct := [.burnWireEnable, .strobeTiming STROBE_ON STROBE_OFF, .strobeEnable]
  -- Attempt to acquire and send GPS position
  let r1 := sbd_send_position true
  -- Turn off GPS and modem power after transmission
  let post : List RecAct := [.gpsPwrOff, .modemPwrOff]
  if sbd_pos_ok r1 then
    (pre ++ [.sendPos true] ++ post, .okFirst)
  else
    -- Retry GPS transmission
    let r2 := sbd_send_position false
    if sbd_pos_ok r2 then
      (pre ++ [.sendPos true, .sendPos false] ++ post, .okRetry)
    else
      (pre ++ [.sendPos true, .sendPos false] ++ post, .failFinal)

/-- The `sendPos` calls recorded in an action trace, each represented by
its `maintain_gps_pwr` flag, in order. -/
def sendPosCalls (tr : List RecAct) : List Bool :=
  tr.filterMap fun a =>
    match a with
    | .sendPos m => some m
    | _ => none

/-- The `while attempt < max_tries` loop of `Recovery.transmit_file`,
with the modem collaborator modelled as an oracle from the attempt
number (1-based) to the truthiness of `sbd_send_file`'s result.
`remaining` counts `max_tries - attempt`, so the guard `attempt <
max_tries` is `remaining ≠ 0`. Returns the number of attempts made and
whether the transmission succeeded. -/
def transmit_file_loop (sbd_send_file : ℕ → Bool) (attempt : ℕ) : ℕ → ℕ × Bool
  | 0 => (attempt, false)
  | remaining + 1 =>
    let attempt1 := attempt + 1
    if sbd_send_file attempt1 then
      (attempt1, true)  -- Exit the function on success
    else
      transmit_file_loop sbd_send_file attempt1 remaining

/-- `Recovery.transmit_file`: `attempt = 0`, `max_tries = 5`. -/
def transmit_file (sbd_send_file : ℕ → Bool) : ℕ × Bool :=
  transmit_file_loop sbd_send_file 0 5

/-- `Recovery.acquire_and_send_gps_position` with a collaborator that may
raise: the Python body contains no `try`/`except`, so an exception from
`sbd_send_position` propagates (modelled by the `Except` bind). -/
def acquireE (sbd_send_position : Bool → Except Unit (Bool × PosResult)) :
    Except Unit GpsReport :=
  match sbd_send_position true with
  | .error e => .error e
  | .ok r1 =>
    if sbd_pos_ok r1 then
      .ok .okFirst
    else
      match sbd_send_position false with
      | .error e => .error e
      | .ok r2 =>
        if sbd_pos_ok r2 then
          .ok .okRetry
        else
          .ok .failFinal

/-- The loop of `Recovery.transmit_file` with a collaborator that may
raise: no `try`/`except` in the Python body, so an exception from
`sbd_send_file` propagates. -/
def transmit_fileE_loop (sbd_send_file : ℕ → Except Unit Bool) (attempt : ℕ) :
    ℕ → Except Unit (ℕ × Bool)
  | 0 => .ok (attempt, false)
  | remaining + 1 =>
    match sbd_send_file (attempt + 1) with
    | .error e => .error e
    | .ok ret =>
      if ret then
        .ok (attempt + 1, true)
      else
        transmit_fileE_loop sbd_send_file (attempt + 1) remaining

/-- `Recovery.transmit_file` over a possibly-raising collaborator. -/
def transmit_fileE (sbd_send_file : ℕ → Except Unit Bool) : Except Unit (ℕ × Bool) :=
  transmit_fileE_loop sbd_send_file 0 5

/-- A concrete send-position oracle whose first attempt fails and whose
retry succeeds. -/
def c6Oracle : Bool → Bool × PosResult := fun maintain =>
  if maintain then (false, ⟨false⟩) else (true, ⟨true⟩)

/-- Modelled from the spec: the `MinSat` collaborator lives in
`sensors/minsat.py`, which is not among the sources; per the spec,
GPS/modem failures are reported through return values and logging and
"no exceptions propagate past these boundaries", i.e. every collaborator
call returns normally instead of raising. -/
def minsat_returns_normally (fpos : Bool → Except Unit (Bool × PosResult))
    (ffile : ℕ → Except Unit Bool) : Prop :=
  (∀ b, (fpos b).isOk = true) ∧ (∀ n, (ffile n).isOk = true)

/-- A concrete never-raising send-position oracle. -/
def c7PosOracle : Bool → Except Unit (Bool × PosResult) := fun _ =>
  .ok (true, ⟨true⟩)

/-- A concrete never-raising send-file oracle. -/
def c7FileOracle : ℕ → Except Unit Bool := fun _ => .ok false

end Recovery

namespace TP

/-- A Python float as `tp.py` manipulates it: either NaN or a rational
value (`float('nan')` initialisation and NaN propagation are what the
error-handling claims are about; float rounding is not modelled). -/
inductive FVal
  | nan
  | num (q : ℚ)
deriving DecidableEq, Repr

/-- `depth_factor = .01`. -/
def depth_factor : ℚ := 1/100

/-- `surface_offset = 10`. -/
def surface_offset : ℚ := 10

/-- Multiplication on floats: NaN propagates. -/
def FVal.mul : FVal → FVal → FVal
  | .num a, .num b => .num (a * b)
  | _, _ => .nan

/-- Subtraction on floats: NaN propagates. -/
def FVal.sub : FVal → FVal → FVal
  | .num a, .num b => .num (a - b)
  | _, _ => .nan

/-- Python `round(y, 3)` on an exact rational: round half to even at
three decimal places. -/
def pyRound3 (x : ℚ) : ℚ :=
  let y := x * 1000
  let fl : ℤ := ⌊y⌋
  let frac := y - fl
  let r : ℤ :=
    if frac < 1/2 then fl
    else if 1/2 < frac then fl + 1
    else if fl % 2 = 0 then fl else fl + 1
  (r : ℚ) / 1000

/-- `round(·, 3)` on floats: NaN propagates. -/
def FVal.round3 : FVal → FVal
  | .num a => .num (pyRound3 a)
  | .nan => .nan

/-- `TP.sample` of `tp.py`, sensor values only (the wall-clock timestamp
`time.time()`/`strftime` is outside the embedding). The two sensor reads
are oracles: `Except.error ()` models a read raising `OSError`, which
`sample` catches and logs, leaving the initial `float('nan')` values in
place; a successful pressure read yields the `(p, pt)` pair that
`tp.py` unpacks, with `p` then rescaled and rounded.

Modelled from the spec: the `tsys01`/`ms5837` driver modules are not in
the sources; per `tp.py`'s own unpacking and the spec, a successful
pressure read returns a (pressure, auxiliary temperature) pair and read
failures surface as `OSError`. -/
def sample (tempRead : Except Unit FVal) (pressureRead : Except Unit (FVal × FVal)) :
    FVal × FVal × FVal :=
  -- t, p, pt = float('nan'), float('nan'), float('nan')
  let t : FVal :=
    match tempRead with
    | .ok v => v
    | .error _ => .nan  -- logger.warning('Error reading temperature sensor.')
  let ppt : FVal × FVal :=
    match pressureRead with
    | .ok (p0, pt0) =>
      ((FVal.sub (FVal.mul p0 (.num depth_factor)) (.num surface_offset)).round3, pt0)
    | .error _ => (.nan, .nan)  -- logger.warning('Error reading pressure sensor.')
  (t, ppt.1, ppt.2)

end TP

/-! ## Theorems -/

namespace MinionHatGpio

/-- `light_ring_set` never changes the flash-sequence fields. -/
theorem light_ring_set_flash_fields (b : Bool) (s : RingState) :
    (light_ring_set b s).ring_flashing = s.ring_flashing ∧
    (light_ring_set b s).flash_counter = s.flash_counter ∧
    (light_ring_set b s).ring_flash_count = s.ring_flash_count := by
  unfold light_ring_set light_ring_set_w light_ring_open_thread
  split
  · exact ⟨rfl, rfl, rfl⟩
  · split
    · exact ⟨rfl, rfl, rfl⟩
    · split <;> exact ⟨rfl, rfl, rfl⟩

/-- The timer update never changes the flash-sequence fields. -/
theorem ring_update_timers_flash_fields (s : RingState) :
    (ring_update_timers s).ring_flashing = s.ring_flashing ∧
    (ring_update_timers s).flash_counter = s.flash_counter ∧
    (ring_update_timers s).ring_flash_count = s.ring_flash_count := by
  unfold ring_update_timers
  split <;> exact ⟨rfl, rfl, rfl⟩

/-- The tick is the flashing logic applied after the safety phase. -/
theorem light_ring_tick_eq (s : RingState) :
    light_ring_tick s = (ring_flash_w (ring_safety_w (ring_update_timers s)).1).1 :=
  rfl

/-- The safety phase never changes the flash-sequence fields. -/
theorem ring_safety_w_flash_fields (s : RingState) :
    (ring_safety_w s).1.ring_flashing = s.ring_flashing ∧
    (ring_safety_w s).1.flash_counter = s.flash_counter ∧
    (ring_safety_w s).1.ring_flash_count = s.ring_flash_count := by
  unfold ring_safety_w
  split
  · exact light_ring_set_flash_fields false s
  · exact ⟨rfl, rfl, rfl⟩

/-- A tick in the middle of a flash sequence advances the counter by one
and keeps the sequence active. -/
theorem light_ring_tick_flash_step (s : RingState)
    (hf : s.ring_flashing = true)
    (hlt : s.flash_counter < s.ring_flash_count) :
    (light_ring_tick s).ring_flashing = true ∧
    (light_ring_tick s).flash_counter = s.flash_counter + 1 ∧
    (light_ring_tick s).ring_flash_count = s.ring_flash_count := by
  obtain ⟨t1, t2, t3⟩ := ring_update_timers_flash_fields s
  obtain ⟨h1, h2, h3⟩ := ring_safety_w_flash_fields (ring_update_timers s)
  have e1 := h1.trans t1
  have e2 := h2.trans t2
  have e3 := h3.trans t3
  rw [light_ring_tick_eq]
  unfold ring_flash_w
  rw [if_pos (e1.trans hf), if_pos (by rw [e2, e3]; exact hlt)]
  exact ⟨e1.trans hf, by rw [e2], e3⟩

/-- A tick after the requested count is completed stops the flash
sequence and resets the counter. -/
theorem light_ring_tick_flash_stop (s : RingState)
    (hf : s.ring_flashing = true)
    (hge : ¬ s.flash_counter < s.ring_flash_count) :
    (light_ring_tick s).ring_flashing = false ∧
    (light_ring_tick s).flash_counter = 0 := by
  obtain ⟨t1, t2, t3⟩ := ring_update_timers_flash_fields s
  obtain ⟨h1, h2, h3⟩ := ring_safety_w_flash_fields (ring_update_timers s)
  have e1 := h1.trans t1
  have e2 := h2.trans t2
  have e3 := h3.trans t3
  rw [light_ring_tick_eq]
  unfold ring_flash_w
  rw [if_pos (e1.trans hf), if_neg (by rw [e2, e3]; exact hge)]
  exact ⟨rfl, rfl⟩

/-- Claim C1: on any tick taken while the ring is on and the cumulative
on-timer has reached `LIGHT_RING_MAX_ON_TIME`, the safety check forces
the ring off: after the tick the logical state is off and the `LED_RING`
pin is driven low, regardless of any pending or in-progress flash
sequence on that same tick. -/
theorem ring_forced_off_once_max_on_time_reached (s : RingState)
    (hon : s.ring_state = true)
    (hmax : LIGHT_RING_MAX_ON_TIME ≤ s.ring_on_time) :
    (light_ring_tick s).ring_state = false ∧
    (light_ring_tick s).led_ring_output = false := by
  have hu_state : (ring_update_timers s).ring_state = true := by
    simp [ring_update_timers, hon]
  have hu_on : LIGHT_RING_MAX_ON_TIME ≤ (ring_update_timers s).ring_on_time := by
    simp only [ring_update_timers, hon, if_true]
    have hd : (0:ℚ) ≤ LIGHT_RING_REFRESH_DELAY := by norm_num [LIGHT_RING_REFRESH_DELAY]
    linarith
  rw [light_ring_tick_eq]
  unfold ring_safety_w
  rw [if_pos ⟨hu_state, hu_on⟩]
  have hset_state : (light_ring_set_w false (ring_update_timers s)).1.ring_state = false := by
    unfold light_ring_set_w
    rw [if_neg (by simp [hu_state]), if_neg (by simp)]
  have hset_out :
      (light_ring_set_w false (ring_update_timers s)).1.led_ring_output = false := by
    unfold light_ring_set_w
    rw [if_neg (by simp [hu_state]), if_neg (by simp)]
  unfold ring_flash_w
  split
  · split
    · exact ⟨hset_state, rfl⟩
    · exact ⟨hset_state, hset_out⟩
  · exact ⟨hset_state, hset_out⟩

/-- Witness for C1: a concrete on-state at the 60 s limit, with a flash
sequence in progress, is turned off (state and pin) by the next tick. -/
theorem ring_forced_off_once_max_on_time_reached_witness :
    (light_ring_tick c1TestState).ring_state = false ∧
    (light_ring_tick c1TestState).led_ring_output = false :=
  ring_forced_off_once_max_on_time_reached c1TestState rfl le_rfl

/-- Claim C2, counterexample: from the reachable state `c2TraceState`
(ring turned on, one tick, ring turned off, one-step flash requested),
the next tick writes HIGH to the `LED_RING` pin although the off-timer
in effect during that tick (updated at its start, 0.5 s) is below
`LIGHT_RING_MIN_OFF_TIME`: the flash logic is not subject to the
minimum-off-time guard. -/
theorem ring_flash_pulse_below_min_off_time :
    true ∈ (light_ring_tick_w c2TraceState).2 ∧
    (ring_update_timers c2TraceState).ring_off_time < LIGHT_RING_MIN_OFF_TIME := by
  norm_num [c2TraceState, light_ring_tick, light_ring_tick_w, light_ring_set,
    light_ring_set_w, light_ring_flash_set, ring_update_timers, ring_safety_w,
    ring_flash_w, initialRingState, light_ring_open_thread, LIGHT_RING_MIN_OFF_TIME,
    LIGHT_RING_MAX_ON_TIME, LIGHT_RING_REFRESH_DELAY]

/-- Claim C2 as amended: `light_ring_set` never writes HIGH to the
`LED_RING` pin while the off-timer is below `LIGHT_RING_MIN_OFF_TIME`;
the high pulses emitted by the flash logic in the background thread are
not subject to this guard. -/
theorem light_ring_set_high_write_requires_min_off (b : Bool) (s : RingState)
    (h : true ∈ (light_ring_set_w b s).2) :
    LIGHT_RING_MIN_OFF_TIME ≤ s.ring_off_time := by
  unfold light_ring_set_w at h
  split at h
  · simp at h
  · split at h
    · simp at h
    · next hguard =>
      have hb : b = true := by simpa using h
      subst hb
      push_neg at hguard
      exact hguard rfl

/-- Witness for the amended C2: from the initial state, where the
off-timer equals the minimum, `light_ring_set(True)` does write HIGH,
and indeed the off-timer is at least the minimum. -/
theorem light_ring_set_high_write_requires_min_off_witness :
    LIGHT_RING_MIN_OFF_TIME ≤ initialRingState.ring_off_time :=
  light_ring_set_high_write_requires_min_off true initialRingState
    (by norm_num [light_ring_set_w, initialRingState, light_ring_open_thread,
      LIGHT_RING_MIN_OFF_TIME])

/-- Claim C3: `light_ring_flash_set(count, time_on, time_off)` always
supersedes any in-progress sequence: immediately afterwards the flash
parameters equal the new arguments, the completed-step counter is 0,
and flashing is active. -/
theorem flash_set_supersedes_in_progress_sequence (s : RingState) (c ton toff : ℤ) :
    (light_ring_flash_set c ton toff s).ring_flash_count = c ∧
    (light_ring_flash_set c ton toff s).ring_flash_on_time = ton ∧
    (light_ring_flash_set c ton toff s).ring_flash_off_time = toff ∧
    (light_ring_flash_set c ton toff s).flash_counter = 0 ∧
    (light_ring_flash_set c ton toff s).ring_flashing = true := by
  by_cases hf : s.ring_flashing <;> by_cases ha : s.ring_alive <;>
    simp [light_ring_flash_set, light_ring_open_thread, hf, ha]

/-- Claim C4: starting from a state where a flash sequence of n steps has
just been requested (flashing active, counter 0), with no further
set/flash requests, each background tick advances the sequence by
exactly one step until n steps have completed, and the tick after that
clears `ring_flashing` and resets `flash_counter` to 0: the sequence
self-terminates after n + 1 ticks. -/
theorem flash_sequence_advances_one_step_per_tick_and_self_terminates
    (s : RingState) (n : ℕ)
    (hf : s.ring_flashing = true)
    (hc : s.flash_counter = 0)
    (hn : s.ring_flash_count = (n : ℤ)) :
    (∀ k : ℕ, k ≤ n →
      (light_ring_tick^[k] s).ring_flashing = true ∧
      (light_ring_tick^[k] s).flash_counter = (k : ℤ) ∧
      (light_ring_tick^[k] s).ring_flash_count = (n : ℤ)) ∧
    (light_ring_tick^[n + 1] s).ring_flashing = false ∧
    (light_ring_tick^[n + 1] s).flash_counter = 0 := by
  have key : ∀ k : ℕ, k ≤ n →
      (light_ring_tick^[k] s).ring_flashing = true ∧
      (light_ring_tick^[k] s).flash_counter = (k : ℤ) ∧
      (light_ring_tick^[k] s).ring_flash_count = (n : ℤ) := by
    intro k
    induction k with
    | zero =>
      intro _
      simpa using ⟨hf, hc, hn⟩
    | succ k ih =>
      intro hk
      obtain ⟨h1, h2, h3⟩ := ih (Nat.le_of_succ_le hk)
      have hlt : (light_ring_tick^[k] s).flash_counter <
          (light_ring_tick^[k] s).ring_flash_count := by
        rw [h2, h3]
        exact_mod_cast Nat.lt_of_succ_le hk
      obtain ⟨g1, g2, g3⟩ := light_ring_tick_flash_step _ h1 hlt
      rw [Function.iterate_succ_apply']
      refine ⟨g1, ?_, g3.trans h3⟩
      rw [g2, h2]
      push_cast
      ring
  obtain ⟨h1, h2, h3⟩ := key n le_rfl
  have hge : ¬ (light_ring_tick^[n] s).flash_counter <
      (light_ring_tick^[n] s).ring_flash_count := by
    rw [h2, h3]
    exact lt_irrefl _
  obtain ⟨g1, g2⟩ := light_ring_tick_flash_stop _ h1 hge
  rw [Function.iterate_succ_apply']
  exact ⟨key, g1, g2⟩

/-- Witness for C4: a freshly requested two-step flash sequence is over,
with flashing cleared and the counter reset, after three ticks. -/
theorem flash_sequence_self_terminates_witness :
    (light_ring_tick^[2 + 1] c4TestState).ring_flashing = false ∧
    (light_ring_tick^[2 + 1] c4TestState).flash_counter = 0 := by
  have h := flash_sequence_advances_one_step_per_tick_and_self_terminates
    c4TestState 2 (by norm_num [c4TestState, light_ring_flash_set,
      light_ring_open_thread, initialRingState])
    (by norm_num [c4TestState, light_ring_flash_set, light_ring_open_thread,
      initialRingState])
    (by norm_num [c4TestState, light_ring_flash_set, light_ring_open_thread,
      initialRingState])
  exact ⟨h.2.1, h.2.2⟩

/-- Claim C9: `light_ring_close_thread` clears `ring_alive` and drives
the pin low but leaves `ring_state` unchanged; from a state where the
ring was logically on, a subsequent `light_ring_set(True)` observes
`ring_state == new_state` and returns without re-driving the output, so
the logical state stays on while the pin stays low. -/
theorem close_thread_leaves_ring_state_desynchronized (s : RingState)
    (hs : s.ring_state = true) :
    (light_ring_close_thread s).ring_state = s.ring_state ∧
    (light_ring_close_thread s).led_ring_output = false ∧
    (light_ring_close_thread s).ring_alive = false ∧
    light_ring_set true (light_ring_close_thread s) = light_ring_close_thread s ∧
    (light_ring_set true (light_ring_close_thread s)).ring_state = true ∧
    (light_ring_set true (light_ring_close_thread s)).led_ring_output = false := by
  have hset : light_ring_set true (light_ring_close_thread s) =
      light_ring_close_thread s := by
    unfold light_ring_set light_ring_set_w
    rw [if_pos]
    show (light_ring_close_thread s).ring_state = true
    simpa [light_ring_close_thread] using hs
  refine ⟨rfl, rfl, rfl, hset, ?_, ?_⟩
  · rw [hset]
    simpa [light_ring_close_thread] using hs
  · rw [hset]
    rfl

/-- Witness for C9: turn the ring on from the initial state, close the
thread, then call `light_ring_set(True)`: the logical state reads on
while the pin is low. -/
theorem close_thread_leaves_ring_state_desynchronized_witness :
    (light_ring_set true (light_ring_close_thread
      (light_ring_set true initialRingState))).ring_state = true ∧
    (light_ring_set true (light_ring_close_thread
      (light_ring_set true initialRingState))).led_ring_output = false := by
  have h := close_thread_leaves_ring_state_desynchronized
    (light_ring_set true initialRingState)
    (by norm_num [light_ring_set, light_ring_set_w, initialRingState,
      light_ring_open_thread, LIGHT_RING_MIN_OFF_TIME])
  exact ⟨h.2.2.2.2.1, h.2.2.2.2.2⟩

end MinionHatGpio

namespace Recovery

/-- Unfolding of the bounded retry loop of `transmit_file` at the fixed
bound of 5 attempts. -/
theorem transmit_file_eq (f : ℕ → Bool) :
    transmit_file f =
      if f 1 then (1, true)
      else if f 2 then (2, true)
      else if f 3 then (3, true)
      else if f 4 then (4, true)
      else if f 5 then (5, true)
      else (5, false) :=
  rfl

/-- Claim C5: for every sequence of modem send outcomes, `transmit_file`
makes at most 5 calls to `sbd_send_file`; when it reports success it
returned right after the first truthy attempt (all earlier attempts were
falsy), and when it reports failure it made exactly 5 attempts, all
falsy. -/
theorem transmit_file_five_attempt_retry_policy (f : ℕ → Bool) :
    (transmit_file f).1 ≤ 5 ∧
    ((transmit_file f).2 = true →
      f (transmit_file f).1 = true ∧
      ∀ j, 1 ≤ j → j < (transmit_file f).1 → f j = false) ∧
    ((transmit_file f).2 = false →
      (transmit_file f).1 = 5 ∧ ∀ j, 1 ≤ j → j ≤ 5 → f j = false) := by
  rw [transmit_file_eq]
  cases h1 : f 1 <;> cases h2 : f 2 <;> cases h3 : f 3 <;> cases h4 : f 4 <;>
    cases h5 : f 5 <;>
    simp [h1, h2, h3, h4, h5] <;>
    (intro j hj1 hj2; first
      | omega
      | (interval_cases j <;> assumption))

/-- Witness for C5: with an always-successful modem, `transmit_file`
reports success and its single attempt was truthy. -/
theorem transmit_file_five_attempt_retry_policy_witness :
    (fun _ : ℕ => true) (transmit_file (fun _ : ℕ => true)).1 = true :=
  ((transmit_file_five_attempt_retry_policy (fun _ : ℕ => true)).2.1 rfl).1

/-- Claim C6: `acquire_and_send_gps_position` sends first with
`maintain_gps_pwr=True`; exactly when that attempt fails it makes one
retry with `maintain_gps_pwr=False` (reporting failure only if the retry
also fails); it never makes a third attempt, and on first-attempt
success no retry occurs. -/
theorem acquire_and_send_gps_position_retry_policy (f : Bool → Bool × PosResult) :
    (sbd_pos_ok (f true) = true →
      sendPosCalls (acquire_and_send_gps_position f).1 = [true] ∧
      (acquire_and_send_gps_position f).2 = .okFirst) ∧
    (sbd_pos_ok (f true) = false →
      sendPosCalls (acquire_and_send_gps_position f).1 = [true, false] ∧
      (sbd_pos_ok (f false) = true →
        (acquire_and_send_gps_position f).2 = .okRetry) ∧
      (sbd_pos_ok (f false) = false →
        (acquire_and_send_gps_position f).2 = .failFinal)) := by
  cases hx : sbd_pos_ok (f true) <;> cases hy : sbd_pos_ok (f false) <;>
    simp [acquire_and_send_gps_position, sendPosCalls, hx, hy]

/-- Witness for C6: with a first attempt that fails and a retry that
succeeds, exactly the two calls `[True, False]` happen and the retry
success is reported. -/
theorem acquire_and_send_gps_position_retry_policy_witness :
    sendPosCalls (acquire_and_send_gps_position c6Oracle).1 = [true, false] ∧
    (acquire_and_send_gps_position c6Oracle).2 = .okRetry := by
  have h := (acquire_and_send_gps_position_retry_policy c6Oracle).2 rfl
  exact ⟨h.1, h.2.1 rfl⟩

/-- Claim C10: on every normal return of `acquire_and_send_gps_position`
— first-attempt success, retry success, or final failure — the last two
device actions are `gps_pwr(dev_off)` then `modem_pwr(dev_off)`. -/
theorem acquire_and_send_gps_position_powers_off (f : Bool → Bool × PosResult) :
    ∃ pre, (acquire_and_send_gps_position f).1 =
      pre ++ [RecAct.gpsPwrOff, RecAct.modemPwrOff] := by
  simp only [acquire_and_send_gps_position]
  split
  · exact ⟨[.burnWireEnable, .strobeTiming STROBE_ON STROBE_OFF, .strobeEnable,
      .sendPos true], rfl⟩
  · split
    · exact ⟨[.burnWireEnable, .strobeTiming STROBE_ON STROBE_OFF, .strobeEnable,
        .sendPos true, .sendPos false], rfl⟩
    · exact ⟨[.burnWireEnable, .strobeTiming STROBE_ON STROBE_OFF, .strobeEnable,
        .sendPos true, .sendPos false], rfl⟩

/-- An `Except` value that is `isOk` is an `Except.ok`. -/
theorem exists_ok_of_isOk {α : Type} {e : Except Unit α} (h : e.isOk = true) :
    ∃ v, e = .ok v := by
  cases e
  · exact absurd h (by simp [Except.isOk, Except.toBool])
  · exact ⟨_, rfl⟩

/-- The retry loop of `transmit_fileE` returns normally whenever every
collaborator call returns normally. -/
theorem transmit_fileE_loop_isOk (ffile : ℕ → Except Unit Bool)
    (hfile : ∀ n, (ffile n).isOk = true) :
    ∀ remaining attempt, (transmit_fileE_loop ffile attempt remaining).isOk = true := by
  intro remaining
  induction remaining with
  | zero => intro a; rfl
  | succ r ih =>
    intro a
    obtain ⟨v, hv⟩ := exists_ok_of_isOk (hfile (a + 1))
    cases v
    · simpa [transmit_fileE_loop, hv] using ih (a + 1)
    · simp [transmit_fileE_loop, hv, Except.isOk, Except.toBool]

/-- Claim C7: when every `MinSat` collaborator call returns (rather than
raising), `acquire_and_send_gps_position` and `transmit_file` return
normally: neither introduces an exception of its own, so no exception
propagates past these boundaries. -/
theorem recovery_methods_no_exception_when_collaborator_returns
    (fpos : Bool → Except Unit (Bool × PosResult))
    (ffile : ℕ → Except Unit Bool)
    (h : minsat_returns_normally fpos ffile) :
    (acquireE fpos).isOk = true ∧ (transmit_fileE ffile).isOk = true := by
  obtain ⟨hpos, hfile⟩ := h
  constructor
  · obtain ⟨r1, h1⟩ := exists_ok_of_isOk (hpos true)
    obtain ⟨r2, h2⟩ := exists_ok_of_isOk (hpos false)
    cases hb1 : sbd_pos_ok r1 <;> cases hb2 : sbd_pos_ok r2 <;>
      simp [acquireE, h1, h2, hb1, hb2, Except.isOk, Except.toBool]
  · exact transmit_fileE_loop_isOk ffile hfile 5 0

/-- Witness for C7: with concrete never-raising collaborators, both
methods return normally. -/
theorem recovery_methods_no_exception_witness :
    (acquireE c7PosOracle).isOk = true ∧ (transmit_fileE c7FileOracle).isOk = true :=
  recovery_methods_no_exception_when_collaborator_returns c7PosOracle c7FileOracle
    ⟨fun _ => rfl, fun _ => rfl⟩

end Recovery

namespace TP

/-- Claim C8: when a sensor read inside `TP.sample` raises `OSError`,
`sample` still returns normally, with NaN for the affected values: a
temperature-read failure yields NaN temperature, and a pressure-read
failure yields NaN pressure and NaN auxiliary temperature. -/
theorem sample_degrades_to_nan_on_read_error
    (tr : Except Unit FVal) (pr : Except Unit (FVal × FVal)) :
    (tr = .error () → (sample tr pr).1 = .nan) ∧
    (pr = .error () → (sample tr pr).2.1 = .nan ∧ (sample tr pr).2.2 = .nan) := by
  constructor
  · intro h
    subst h
    rfl
  · intro h
    subst h
    exact ⟨rfl, rfl⟩

/-- Witness for C8: when both reads raise, `sample` returns the NaN
triple. -/
theorem sample_degrades_to_nan_on_read_error_witness :
    (sample (.error ()) (.error ())).1 = .nan ∧
    (sample (.error ()) (.error ())).2.1 = .nan ∧
    (sample (.error ()) (.error ())).2.2 = .nan := by
  have h := sample_degrades_to_nan_on_read_error (.error ()) (.error ())
  exact ⟨h.1 rfl, (h.2 rfl).1, (h.2 rfl).2⟩

end TP
